import Mathlib

set_option maxHeartbeats 1000000

/-!
Shallow embedding of the prescribed-burn analysis service
(`src/app.py` and `src/services/burn_agent.py`).

The HTTP fetches themselves are opaque collaborators: each section of the
agent receives the decoded upstream payload as an `Except String α` value,
where `Except.error msg` models the Python exception (with message `msg`)
that the fetch or the JSON access raised inside the try block of that
section.  Everything after the fetches is translated statement by
statement from the Python source.
-/

/-- The `relativeHumidity` field of a forecast period as it arrives in
upstream JSON: key missing, explicit null, a plain number, or a dict
wrapper holding an optional `value` entry. -/
inductive HumidityField where
  | absent
  | nullv
  | flat (v : ℚ)
  | wrapped (value : Option ℚ)
  deriving DecidableEq, Repr

/-- The humidity a single raw field yields inside `_get_weather_data`.
The Python code first tests truthiness of the field (`0`, `None`, a
missing key are all falsy; a non-empty dict is truthy), then reads
`.get("value")` when the field is a dict, else takes the field itself.
Both the own field of a period and each hourly entry run this logic. -/
def HumidityField.extract : HumidityField → Option ℚ
  | .absent => none
  | .nullv => none
  | .flat v => if v = 0 then none else some v
  | .wrapped value => value

/-- The backfill loop over `hourly_periods[start_idx : start_idx + 4]`:
the loop breaks at the first entry whose field yields an actual value
(`if humidity is not None: break`); entries whose field is falsy, or a
wrapper around null, are passed over. -/
def scanHourly : List HumidityField → Option ℚ
  | [] => none
  | h :: rest =>
    match h.extract with
    | some v => some v
    | none => scanHourly rest

/-- Shape of the `humidity` key of a normalized period: a number, or the
string sentinel `"N/A"`. -/
inductive HumidityOut where
  | num (v : ℚ)
  | na
  deriving DecidableEq, Repr

/-- Humidity resolution for the period at index `i` in
`_get_weather_data`: the own field of the period first; when that left
`humidity` at `None` and the hourly list is non-empty, the 4-item slice
of the hourly feed at offset `i * 4`; otherwise the sentinel. -/
def resolveHumidity (own : HumidityField) (hourly : List HumidityField)
    (i : Nat) : HumidityOut :=
  let humidity := own.extract
  let humidity :=
    if humidity = none ∧ hourly ≠ [] then
      scanHourly ((hourly.drop (i * 4)).take 4)
    else humidity
  match humidity with
  | some v => HumidityOut.num v
  | none => HumidityOut.na

/-- A standard forecast period as fetched from the forecast endpoint
(the fields that `_get_weather_data` reads). -/
structure RawPeriod where
  name : String
  temperature : Int
  temperatureUnit : String
  windSpeed : String
  windDirection : String
  relativeHumidity : HumidityField
  shortForecast : String
  detailedForecast : String
  deriving DecidableEq, Repr

/-- A normalized period as `_get_weather_data` emits it. -/
structure NormPeriod where
  name : String
  original_name : String
  temperature : Int
  temperature_unit : String
  wind_speed : String
  wind_direction : String
  humidity : HumidityOut
  short_forecast : String
  detailed_forecast : String
  deriving DecidableEq, Repr

/-- Substring test on character lists: does `needle` occur contiguously
in the second list? -/
def containsSub (needle : List Char) : List Char → Bool
  | [] => needle.isEmpty
  | c :: rest => needle.isPrefixOf (c :: rest) || containsSub needle rest

/-- Python `"night" in original_name.lower()` (lowering is modelled per
character, which agrees with Python on the ASCII period names). -/
def containsNight (s : String) : Bool :=
  containsSub "night".toList (s.toList.map Char.toLower)

/-- Name of the already-normalized period at index `k` of the
accumulator.  The loop only reads indices that are already filled
(`normalized_periods[0]` once `i = 1`, `normalized_periods[1]` once
`i = 2`), so the default is never reached. -/
def accName (acc : List NormPeriod) (k : Nat) : String :=
  ((acc.get? k).map NormPeriod.name).getD ""

/-- Body of the normalization loop of `_get_weather_data`, carrying the
list built so far (`normalized_periods`) and the loop index `i`. -/
def normalizeLoop (hourly : List HumidityField) (acc : List NormPeriod)
    (i : Nat) : List RawPeriod → List NormPeriod
  | [] => acc
  | p :: rest =>
    let normalized_name :=
      if i = 0 then
        if containsNight p.name then "Tonight" else "Today"
      else if i = 1 then
        if accName acc 0 = "Today" then "Tonight" else "Tomorrow"
      else
        if accName acc 1 = "Tonight" then "Tomorrow" else "Tomorrow Night"
    let np : NormPeriod :=
      { name := normalized_name,
        original_name := p.name,
        temperature := p.temperature,
        temperature_unit := p.temperatureUnit,
        wind_speed := p.windSpeed,
        wind_direction := p.windDirection,
        humidity := resolveHumidity p.relativeHumidity hourly i,
        short_forecast := p.shortForecast,
        detailed_forecast := p.detailedForecast }
    normalizeLoop hourly (acc ++ [np]) (i + 1) rest

/-- `_get_weather_data` after the HTTP fetches: keep the first 3 standard
periods (`periods[:3]`) and run the normalization loop over them. -/
def normalizeForecast (periods : List RawPeriod)
    (hourly : List HumidityField) : List NormPeriod :=
  normalizeLoop hourly [] 0 (periods.take 3)

/-- Variant returned by `_get_weather_data`: the normal dict with a
`source` and a `forecast`, or the error dict. -/
inductive WeatherData where
  | err (msg : String)
  | ok (source : String) (forecast : List NormPeriod)
  deriving DecidableEq, Repr

/-- Everything `_get_weather_data` obtains from its three HTTP calls, or
the exception message when any of them raises. -/
def getWeatherData
    (upstream : Except String (List RawPeriod × List HumidityField)) :
    WeatherData :=
  match upstream with
  | .error e => WeatherData.err ("Weather data unavailable: " ++ e)
  | .ok (ps, hs) =>
    WeatherData.ok "National Weather Service (NOAA)" (normalizeForecast ps hs)

/-- Tokenizer behind `pySplit`: walk the characters, collecting the
current token in reverse in `acc` and emitting it at each whitespace
run. -/
def pySplitAux : List Char → List Char → List String
  | [], acc => if acc.isEmpty then [] else [String.mk acc.reverse]
  | c :: rest, acc =>
    if c.isWhitespace then
      if acc.isEmpty then pySplitAux rest []
      else String.mk acc.reverse :: pySplitAux rest []
    else pySplitAux rest (c :: acc)

/-- Python `wind.split()`: split on whitespace runs, no empty tokens. -/
def pySplit (s : String) : List String :=
  pySplitAux s.toList []

/-- Value of a digit string read left to right, as Python `int` reads a
string of decimal digits. -/
def digitsToNat (cs : List Char) : Nat :=
  cs.foldl (fun a c => a * 10 + (c.toNat - 48)) 0

/-- `int("".join(filter(str.isdigit, wind.split()[0])))`.  The error
cases model the two exceptions the statement can raise — the IndexError
on an all-whitespace string and the ValueError on a first token with no
digit characters — which the surrounding `except` turns into the
degraded assessment.  The exception message text is abstracted. -/
def parseWindValue (wind : String) : Except String Nat :=
  match pySplit wind with
  | [] => Except.error "list index out of range"
  | t :: _ =>
    let ds := t.toList.filter Char.isDigit
    if ds.isEmpty then
      Except.error "invalid literal for int with base 10"
    else Except.ok (digitsToNat ds)

def highWindConcern : String := "High wind speeds - increased fire spread risk"

def lowHumidityConcern : String := "Low humidity - increased fire intensity risk"

def highTempConcern : String := "High temperature - increased fire behavior risk"

def moderateConcern : String := "Conditions appear moderate"

def fixedRecommendation : String :=
  "Consult with fire management professionals before proceeding"

/-- `isinstance(humidity, (int, float)) and humidity < 30`. -/
def lowHumidityTriggered : HumidityOut → Bool
  | HumidityOut.num v => decide (v < 30)
  | HumidityOut.na => false

/-- Variant returned by `_assess_burn_conditions`: the concerns dict, or
the degraded dict with only an `assessment` key. -/
inductive Assessment where
  | degraded (assessment : String)
  | ok (concerns : List String) (recommendation : String)
  deriving DecidableEq, Repr

/-- `_assess_burn_conditions`.  The try block is total here: the two
statements that can raise — `forecast[0]` on an empty list and the wind
parse — map to the degraded branch carrying the exception text. -/
def assessBurnConditions (weather_data : WeatherData) : Assessment :=
  match weather_data with
  | WeatherData.err _ =>
    Assessment.degraded "Unable to assess - weather data unavailable"
  | WeatherData.ok _ forecast =>
    match forecast with
    | [] =>
      Assessment.degraded
        ("Unable to assess conditions: " ++ "list index out of range")
    | current :: _ =>
      match parseWindValue current.wind_speed with
      | Except.error m =>
        Assessment.degraded ("Unable to assess conditions: " ++ m)
      | Except.ok wind_value =>
        let concerns :=
          (if wind_value > 15 then [highWindConcern] else [])
            ++ (if lowHumidityTriggered current.humidity then
                  [lowHumidityConcern] else [])
            ++ (if current.temperature > 85 then [highTempConcern] else [])
        Assessment.ok
          (if concerns.isEmpty then [moderateConcern] else concerns)
          fixedRecommendation

/-- `_classify_terrain`. -/
def classifyTerrain (elevation_range : ℚ) : String :=
  if elevation_range < 10 then "Flat terrain"
  else if elevation_range < 50 then "Gently rolling terrain"
  else if elevation_range < 100 then "Moderately hilly terrain"
  else "Steep/mountainous terrain"

/-- Python `round(x, 1)` on the exact rational (half-to-even of CPython
floats is modelled as the rounding of `Rat.round` on the scaled value). -/
def round1 (x : ℚ) : ℚ := ((round (10 * x) : ℤ) : ℚ) / 10

/-- The elevations `_get_topography_data` obtains: the target point and
the four offset samples (the code always requests exactly four). -/
structure TopoRaw where
  elevation : ℚ
  north : ℚ
  south : ℚ
  east : ℚ
  west : ℚ
  deriving DecidableEq, Repr

/-- `max(elevations) - min(elevations)` over the four sampled points. -/
def elevationRange (t : TopoRaw) : ℚ :=
  max (max (max t.north t.south) t.east) t.west
    - min (min (min t.north t.south) t.east) t.west

/-- Variant returned by `_get_topography_data`. -/
inductive TopoData where
  | err (msg : String)
  | ok (source : String) (elevation_meters : ℚ) (elevation_feet : ℚ)
      (elevation_range_nearby : ℚ) (terrain_note : String)
  deriving DecidableEq, Repr

/-- `_get_topography_data` after the HTTP fetches.  Note the code passes
the unrounded range to `_classify_terrain` while storing the rounded
range in the dict. -/
def getTopographyData (upstream : Except String TopoRaw) : TopoData :=
  match upstream with
  | .error e => TopoData.err ("Topography data unavailable: " ++ e)
  | .ok t =>
    TopoData.ok "Open-Elevation API (SRTM 2000)" t.elevation
      (round1 (t.elevation * 3.28084)) (round1 (elevationRange t))
      (classifyTerrain (elevationRange t))

/-- An element of an Overpass response: its `type` and its `tags` dict
(bindings in order; absent `tags` key is the empty list, matching
`element.get("tags", {})`). -/
structure OsmElement where
  type : String
  tags : List (String × String)
  deriving DecidableEq, Repr

/-- Python dict `get`: the binding of the key, if any. -/
def tagGet (tags : List (String × String)) (k : String) : Option String :=
  (tags.find? fun p => p.1 == k).map Prod.snd

/-- Python `a or b` on two optional strings: the left value when it is
truthy (present and non-empty), else the right value. -/
def pyOrStr (a b : Option String) : Option String :=
  match a with
  | some v => if v = "" then b else some v
  | none => b

/-- Keep a tag value only when it is truthy, as `if fuel_type:` and
`if water_type:` do. -/
def keepTruthy : Option String → Option String
  | some v => if v = "" then none else some v
  | none => none

/-- `tags.get("natural") or tags.get("landuse")` followed by the
truthiness test of `if fuel_type:`. -/
def fuelTagOf (tags : List (String × String)) : Option String :=
  keepTruthy (pyOrStr (tagGet tags "natural") (tagGet tags "landuse"))

/-- `fuel_types[t] = fuel_types.get(t, 0) + 1` on an insertion-ordered
dict: bump the existing binding in place, else append a fresh one. -/
def tallyInsert : List (String × Nat) → String → List (String × Nat)
  | [], t => [(t, 1)]
  | (k, c) :: rest, t =>
    if k = t then (k, c + 1) :: rest else (k, c) :: tallyInsert rest t

/-- One iteration of the categorization loop of `_get_fuel_sources`. -/
def fuelStep (fuel_types : List (String × Nat)) (e : OsmElement) :
    List (String × Nat) :=
  if e.type = "way" then
    match fuelTagOf e.tags with
    | some ft => tallyInsert fuel_types ft
    | none => fuel_types
  else fuel_types

/-- The `fuel_types` dict built by `_get_fuel_sources`. -/
def fuelTally (elements : List OsmElement) : List (String × Nat) :=
  elements.foldl fuelStep []

/-- `len([e for e in elements if e["type"] == "way"])`. -/
def totalAreas (elements : List OsmElement) : Nat :=
  (elements.filter fun e => e.type == "way").length

/-- Python `max(fuel_types.items(), key=lambda x: x[1])` over the
insertion-ordered items: on ties the earliest item is kept, because only
a strictly larger key replaces the running maximum. -/
def maxByCount (x : String × Nat) (xs : List (String × Nat)) :
    String × Nat :=
  xs.foldl (fun best y => if y.2 > best.2 then y else best) x

/-- The `dominant_fuel` expression of `_get_fuel_sources`. -/
def dominantFuel (fuel_types : List (String × Nat)) : String :=
  match fuel_types with
  | [] => "Unknown"
  | x :: xs => (maxByCount x xs).1

/-- Variant returned by `_get_fuel_sources`. -/
inductive FuelData where
  | err (msg : String)
  | ok (source : String) (fuel_types_found : List (String × Nat))
      (total_areas : Nat) (dominant_fuel : String)
  deriving DecidableEq, Repr

/-- `_get_fuel_sources` after the HTTP fetch. -/
def getFuelSources (upstream : Except String (List OsmElement)) :
    FuelData :=
  match upstream with
  | .error e => FuelData.err ("Fuel source data unavailable: " ++ e)
  | .ok elements =>
    FuelData.ok "OpenStreetMap via Overpass API" (fuelTally elements)
      (totalAreas elements) (dominantFuel (fuelTally elements))

/-- `tags.get("natural") or tags.get("waterway") or tags.get("landuse")`
followed by the truthiness test of `if water_type:`. -/
def waterTagOf (tags : List (String × String)) : Option String :=
  keepTruthy
    (pyOrStr (tagGet tags "natural")
      (pyOrStr (tagGet tags "waterway") (tagGet tags "landuse")))

/-- One iteration of the loop of `_get_water_sources`, over the pair of
the `water_types` dict and the `hydrants` counter. -/
def waterStep (st : List (String × Nat) × Nat) (e : OsmElement) :
    List (String × Nat) × Nat :=
  if tagGet e.tags "emergency" = some "fire_hydrant" then
    (st.1, st.2 + 1)
  else
    match waterTagOf e.tags with
    | some wt => (tallyInsert st.1 wt, st.2)
    | none => st

/-- The `water_types` dict and the `hydrants` count. -/
def waterFold (elements : List OsmElement) : List (String × Nat) × Nat :=
  elements.foldl waterStep ([], 0)

/-- Variant returned by `_get_water_sources`. -/
inductive WaterData where
  | err (msg : String)
  | ok (source : String) (water_bodies : List (String × Nat))
      (fire_hydrants : Nat) (total_water_sources : Nat)
  deriving DecidableEq, Repr

/-- `_get_water_sources` after the HTTP fetch. -/
def getWaterSources (upstream : Except String (List OsmElement)) :
    WaterData :=
  match upstream with
  | .error e => WaterData.err ("Water source data unavailable: " ++ e)
  | .ok elements =>
    WaterData.ok "OpenStreetMap via Overpass API" (waterFold elements).1
      (waterFold elements).2 elements.length

/-- What the Nominatim resolver returns for a place name, when it finds
a match. -/
structure GeoResult where
  address : String
  latitude : ℚ
  longitude : ℚ
  deriving DecidableEq, Repr

/-- The `location` dict built by `_geocode_city`. -/
structure LocationRecord where
  source : String
  name : String
  latitude : ℚ
  longitude : ℚ
  deriving DecidableEq, Repr

/-- `_geocode_city`: the resolver answers `none` on no match, and the
raised `ValueError` is the `Except.error`; the method has no try block
of its own, so the error propagates to the caller. -/
def geocodeCity (resolver : Option GeoResult) (city : String) :
    Except String LocationRecord :=
  match resolver with
  | none => Except.error ("Could not find location: " ++ city)
  | some g =>
    Except.ok
      { source := "Nominatim (OpenStreetMap)", name := g.address,
        latitude := g.latitude, longitude := g.longitude }

/-- The top-level report of `analyze_location`, with its six keys. -/
structure AnalysisReport where
  location : LocationRecord
  weather : WeatherData
  topography : TopoData
  fuel_sources : FuelData
  water_sources : WaterData
  burn_assessment : Assessment
  deriving DecidableEq, Repr

/-- One request worth of upstream behaviour: the resolver answer and the
payload (or raised exception) of each of the four section lookups. -/
structure Upstreams where
  resolver : Option GeoResult
  weather : Except String (List RawPeriod × List HumidityField)
  topography : Except String TopoRaw
  fuel : Except String (List OsmElement)
  water : Except String (List OsmElement)

/-- `PrescribedBurnAgent.analyze_location`, paired with the list of
outbound lookups the run performed (modelling instrumentation for the
call-count properties): geocoding first; the four section lookups only
when geocoding returned.  A geocoding failure propagates uncaught. -/
def analyzeLocation (env : Upstreams) (city : String) :
    Except String AnalysisReport × List String :=
  match geocodeCity env.resolver city with
  | Except.error e => (Except.error e, ["geocode"])
  | Except.ok location_data =>
    let weather_data := getWeatherData env.weather
    (Except.ok
      { location := location_data,
        weather := weather_data,
        topography := getTopographyData env.topography,
        fuel_sources := getFuelSources env.fuel,
        water_sources := getWaterSources env.water,
        burn_assessment := assessBurnConditions weather_data },
     ["geocode", "weather", "topography", "fuel", "water"])

/-- A response body of the `/api/analyze` handler. -/
inductive HttpBody where
  | report (r : AnalysisReport)
  | errorMsg (msg : String)
  deriving DecidableEq, Repr

/-- The `/api/analyze` handler of `app.py`: `data.get("city", "")`, the
emptiness check, then the agent call with its except-to-500 wrapper.
The result pairs `(status, body)` with the outbound calls performed. -/
def analyzeEndpoint (cityField : Option String) (env : Upstreams) :
    (Nat × HttpBody) × List String :=
  let city := cityField.getD ""
  if city = "" then ((400, HttpBody.errorMsg "City name is required"), [])
  else
    match analyzeLocation env city with
    | (Except.ok result, calls) => ((200, HttpBody.report result), calls)
    | (Except.error e, calls) => ((500, HttpBody.errorMsg e), calls)

/-- Sum of the counts of a tally. -/
def sumCounts (m : List (String × Nat)) : Nat := (m.map Prod.snd).sum

/-- A sample normalized period, for concrete witnesses. -/
def mkPeriod (nm : String) (temp : Int) (wind : String)
    (hum : HumidityOut) : NormPeriod :=
  { name := nm, original_name := nm, temperature := temp,
    temperature_unit := "F", wind_speed := wind, wind_direction := "NW",
    humidity := hum, short_forecast := "Sunny",
    detailed_forecast := "Sunny." }

/-- A sample raw period, for concrete witnesses. -/
def mkRawPeriod (nm : String) (rh : HumidityField) : RawPeriod :=
  { name := nm, temperature := 70, temperatureUnit := "F",
    windSpeed := "10 mph", windDirection := "NW", relativeHumidity := rh,
    shortForecast := "Sunny", detailedForecast := "Sunny." }

/-- A sample upstream environment, for concrete witnesses: geocoding
succeeds, the weather and fuel lookups succeed, the topography and water
lookups raise. -/
def sampleEnv : Upstreams :=
  { resolver :=
      some { address := "Sample City, USA", latitude := 35, longitude := -101 },
    weather := Except.ok ([mkRawPeriod "This Afternoon" (.flat 40)], []),
    topography := Except.error "timeout",
    fuel := Except.ok [{ type := "way", tags := [("natural", "wood")] }],
    water := Except.error "connection refused" }

/-- Spec-side naming rule for period 0, written from the claim wording:
`Tonight` when the original upstream name contains `night`
case-insensitively, else `Today`. -/
def specName0 (original0 : String) : String :=
  if containsNight original0 then "Tonight" else "Today"

/-- Spec-side naming rule for period 1: `Tonight` when period 0 was
named `Today`, else `Tomorrow`. -/
def specName1 (original0 : String) : String :=
  if specName0 original0 = "Today" then "Tonight" else "Tomorrow"

/-- Spec-side naming rule for period 2: `Tomorrow` when period 1 was
named `Tonight`, else `Tomorrow Night`. -/
def specName2 (original0 : String) : String :=
  if specName1 original0 = "Tonight" then "Tomorrow" else "Tomorrow Night"

/-- The location record `sampleEnv` geocodes to. -/
def sampleLoc : LocationRecord :=
  { source := "Nominatim (OpenStreetMap)", name := "Sample City, USA",
    latitude := 35, longitude := -101 }

/-- A concrete four-period upstream forecast, for witnesses. -/
def demoPeriods : List RawPeriod :=
  [mkRawPeriod "Overnight" HumidityField.absent,
   mkRawPeriod "Friday" HumidityField.absent,
   mkRawPeriod "Friday Night" HumidityField.absent,
   mkRawPeriod "Saturday" HumidityField.absent]

/-- A concrete Overpass response, for witnesses: three ways (two tagged
wood, one tagged grass, plus an untagged one) and one node. -/
def demoElems : List OsmElement :=
  [{ type := "way", tags := [("natural", "wood")] },
   { type := "node", tags := [("natural", "wood")] },
   { type := "way", tags := [] },
   { type := "way", tags := [("landuse", "grass")] },
   { type := "way", tags := [("natural", "wood")] }]

/-! ## Helper lemmas -/

theorem normalizeLoop_length (hourly : List HumidityField) :
    ∀ (l : List RawPeriod) (acc : List NormPeriod) (i : Nat),
      (normalizeLoop hourly acc i l).length = acc.length + l.length := by
  intro l
  induction l with
  | nil => intro acc i; simp [normalizeLoop]
  | cons p rest ih =>
    intro acc i
    simp only [normalizeLoop]
    rw [ih]
    simp
    omega

theorem normalizeLoop_original (hourly : List HumidityField) :
    ∀ (l : List RawPeriod) (acc : List NormPeriod) (i : Nat),
      (normalizeLoop hourly acc i l).map NormPeriod.original_name =
        acc.map NormPeriod.original_name ++ l.map RawPeriod.name := by
  intro l
  induction l with
  | nil => intro acc i; simp [normalizeLoop]
  | cons p rest ih =>
    intro acc i
    simp only [normalizeLoop]
    rw [ih]
    simp

theorem scanHourly_eq_findSome (l : List HumidityField) :
    scanHourly l = l.findSome? HumidityField.extract := by
  induction l with
  | nil => rfl
  | cons h rest ih =>
    simp only [scanHourly, List.findSome?]
    cases h.extract <;> simp [ih]

theorem lowHumidityTriggered_iff (h : HumidityOut) :
    lowHumidityTriggered h = true ↔
      ∃ v, h = HumidityOut.num v ∧ v < 30 := by
  cases h with
  | num v => simp [lowHumidityTriggered]
  | na => simp [lowHumidityTriggered]

theorem maxByCount_spec (xs : List (String × Nat)) :
    ∀ x : String × Nat,
      (maxByCount x xs = x ∨ maxByCount x xs ∈ xs)
      ∧ x.2 ≤ (maxByCount x xs).2
      ∧ ∀ y ∈ xs, y.2 ≤ (maxByCount x xs).2 := by
  induction xs with
  | nil => intro x; simp [maxByCount]
  | cons y ys ih =>
    intro x
    by_cases hy : x.2 < y.2
    · have step : maxByCount x (y :: ys) = maxByCount y ys := by
        simp [maxByCount, List.foldl_cons, hy]
      have h := ih y
      refine ⟨?_, ?_, ?_⟩
      · rw [step]
        rcases h.1 with hm | hm
        · exact Or.inr (by rw [hm]; exact List.mem_cons_self y ys)
        · exact Or.inr (List.mem_cons_of_mem y hm)
      · rw [step]
        have h2 := h.2.1
        omega
      · intro z hz
        rw [step]
        rcases List.mem_cons.mp hz with rfl | hz2
        · exact h.2.1
        · exact h.2.2 z hz2
    · have step : maxByCount x (y :: ys) = maxByCount x ys := by
        simp [maxByCount, List.foldl_cons, hy]
      have h := ih x
      refine ⟨?_, ?_, ?_⟩
      · rw [step]
        rcases h.1 with hm | hm
        · exact Or.inl hm
        · exact Or.inr (List.mem_cons_of_mem y hm)
      · rw [step]
        exact h.2.1
      · intro z hz
        rw [step]
        rcases List.mem_cons.mp hz with rfl | hz2
        · have h2 := h.2.1
          omega
        · exact h.2.2 z hz2

theorem sumCounts_tallyInsert (m : List (String × Nat)) (t : String) :
    sumCounts (tallyInsert m t) = sumCounts m + 1 := by
  induction m with
  | nil => rfl
  | cons kc rest ih =>
    obtain ⟨k, c⟩ := kc
    by_cases hk : k = t
    · simp [tallyInsert, hk, sumCounts]
      omega
    · simp [tallyInsert, hk, sumCounts] at *
      omega

theorem pos_tallyInsert (m : List (String × Nat)) (t : String)
    (hm : ∀ p ∈ m, 0 < p.2) : ∀ p ∈ tallyInsert m t, 0 < p.2 := by
  induction m with
  | nil => simp [tallyInsert]
  | cons kc rest ih =>
    obtain ⟨k, c⟩ := kc
    by_cases hk : k = t
    · intro p hp
      rw [tallyInsert, if_pos hk] at hp
      rcases List.mem_cons.mp hp with rfl | hp2
      · simp
      · exact hm p (List.mem_cons_of_mem _ hp2)
    · intro p hp
      rw [tallyInsert, if_neg hk] at hp
      rcases List.mem_cons.mp hp with rfl | hp2
      · exact hm (k, c) (List.mem_cons_self _ _)
      · exact ih (fun q hq => hm q (List.mem_cons_of_mem _ hq)) p hp2

theorem keys_tallyInsert (m : List (String × Nat)) (t a : String)
    (ha : a ∈ (tallyInsert m t).map Prod.fst) :
    a = t ∨ a ∈ m.map Prod.fst := by
  induction m with
  | nil => simpa [tallyInsert] using ha
  | cons kc rest ih =>
    obtain ⟨k, c⟩ := kc
    by_cases hk : k = t
    · rw [tallyInsert, if_pos hk] at ha
      rw [List.map_cons, List.mem_cons] at ha
      rcases ha with rfl | h2
      · exact Or.inl hk
      · exact Or.inr (by rw [List.map_cons, List.mem_cons]; exact Or.inr h2)
    · rw [tallyInsert, if_neg hk] at ha
      rw [List.map_cons, List.mem_cons] at ha
      rcases ha with rfl | h2
      · exact Or.inr (by rw [List.map_cons, List.mem_cons]; exact Or.inl rfl)
      · rcases ih h2 with h3 | h4
        · exact Or.inl h3
        · exact Or.inr
            (by rw [List.map_cons, List.mem_cons]; exact Or.inr h4)

theorem fuelFold_sum (es : List OsmElement) :
    ∀ acc, sumCounts (es.foldl fuelStep acc) =
      sumCounts acc +
        ((es.filter fun e => e.type == "way").filter
          fun e => (fuelTagOf e.tags).isSome).length := by
  induction es with
  | nil => intro acc; simp
  | cons e es ih =>
    intro acc
    rw [List.foldl_cons, ih]
    by_cases he : e.type = "way"
    · cases ht : fuelTagOf e.tags with
      | some ft =>
        simp [fuelStep, he, ht, sumCounts_tallyInsert, List.filter_cons]
        omega
      | none => simp [fuelStep, he, ht, List.filter_cons]
    · simp [fuelStep, he, List.filter_cons]

theorem fuelFold_pos (es : List OsmElement) :
    ∀ acc, (∀ p ∈ acc, 0 < p.2) →
      ∀ p ∈ es.foldl fuelStep acc, 0 < p.2 := by
  induction es with
  | nil => intro acc hacc; simpa using hacc
  | cons e es ih =>
    intro acc hacc
    rw [List.foldl_cons]
    refine ih (fuelStep acc e) ?_
    rw [fuelStep]
    by_cases he : e.type = "way"
    · rw [if_pos he]
      cases ht : fuelTagOf e.tags with
      | some ft => exact pos_tallyInsert acc ft hacc
      | none => exact hacc
    · rw [if_neg he]
      exact hacc

theorem fuelFold_provenance (es : List OsmElement) :
    ∀ acc, ∀ p ∈ es.foldl fuelStep acc,
      p.1 ∈ acc.map Prod.fst
        ∨ ∃ e ∈ es, e.type = "way" ∧ fuelTagOf e.tags = some p.1 := by
  induction es with
  | nil => intro acc p hp; exact Or.inl (List.mem_map_of_mem Prod.fst hp)
  | cons e es ih =>
    intro acc p hp
    rw [List.foldl_cons] at hp
    rcases ih (fuelStep acc e) p hp with hk | ⟨e2, he2, hway, htag⟩
    · rw [fuelStep] at hk
      by_cases he : e.type = "way"
      · rw [if_pos he] at hk
        cases ht : fuelTagOf e.tags with
        | some ft =>
          rw [ht] at hk
          rcases keys_tallyInsert acc ft p.1 hk with rfl | hacc
          · exact Or.inr ⟨e, List.mem_cons_self _ _, he, ht⟩
          · exact Or.inl hacc
        | none =>
          rw [ht] at hk
          exact Or.inl hk
      · rw [if_neg he] at hk
        exact Or.inl hk
    · exact Or.inr ⟨e2, List.mem_cons_of_mem _ he2, hway, htag⟩

/-! ## Claims -/

/-- Claim C1: the Weather Normalizer retains at most the first 3
standard periods (preserving their original upstream names), names them
positionally — period 0 is `Tonight` when its original name contains
`night` case-insensitively else `Today`, period 1 is `Tonight` when
period 0 was `Today` else `Tomorrow`, period 2 is `Tomorrow` when
period 1 was `Tonight` else `Tomorrow Night` — and consequently every
3-period output is named exactly (Today, Tonight, Tomorrow) or
(Tonight, Tomorrow, Tomorrow Night). -/
theorem c1_period_naming (ps : List RawPeriod)
    (hourly : List HumidityField) :
    (normalizeForecast ps hourly).length = min ps.length 3
    ∧ (normalizeForecast ps hourly).map NormPeriod.original_name =
        (ps.take 3).map RawPeriod.name
    ∧ (∀ p0 rest, ps = p0 :: rest →
        ((normalizeForecast ps hourly).map NormPeriod.name).head? =
          some (specName0 p0.name))
    ∧ (∀ p0 p1 p2 rest, ps = p0 :: p1 :: p2 :: rest →
        (normalizeForecast ps hourly).map NormPeriod.name =
          [specName0 p0.name, specName1 p0.name, specName2 p0.name]
        ∧ ([specName0 p0.name, specName1 p0.name, specName2 p0.name] =
            ["Today", "Tonight", "Tomorrow"]
          ∨ [specName0 p0.name, specName1 p0.name, specName2 p0.name] =
            ["Tonight", "Tomorrow", "Tomorrow Night"])) := by
  refine ⟨?_, ?_, ?_, ?_⟩
  · rw [normalizeForecast, normalizeLoop_length]
    simp [Nat.min_comm]
  · rw [normalizeForecast, normalizeLoop_original]
    simp
  · rintro p0 rest rfl
    cases rest with
    | nil =>
      cases hc : containsNight p0.name <;>
        simp [normalizeForecast, normalizeLoop, specName0, hc]
    | cons p1 rest2 =>
      cases rest2 with
      | nil =>
        cases hc : containsNight p0.name <;>
          simp [normalizeForecast, normalizeLoop, specName0, hc]
      | cons p2 rest3 =>
        cases hc : containsNight p0.name <;>
          simp [normalizeForecast, normalizeLoop, specName0, hc]
  · rintro p0 p1 p2 rest rfl
    cases hc : containsNight p0.name <;>
      simp [normalizeForecast, normalizeLoop, specName0, specName1,
        specName2, hc, accName]

/-- Witness for C1 at a concrete four-period forecast starting with
`Overnight`. -/
theorem c1_period_naming_witness :
    (normalizeForecast demoPeriods []).map NormPeriod.name =
      [specName0 "Overnight", specName1 "Overnight", specName2 "Overnight"]
    ∧ ([specName0 "Overnight", specName1 "Overnight",
        specName2 "Overnight"] = ["Today", "Tonight", "Tomorrow"]
      ∨ [specName0 "Overnight", specName1 "Overnight",
          specName2 "Overnight"] =
        ["Tonight", "Tomorrow", "Tomorrow Night"]) :=
  (c1_period_naming demoPeriods []).2.2.2 _ _ _ _ rfl

/-- Counterexample for C2 as stated: a period whose own
`relativeHumidity` is the plain numeric value 0 is NOT used verbatim —
the hourly feed overrides it (first conjuncts) — and an hourly entry
with plain value 0 is skipped rather than taken as the first entry
exposing a value (last conjunct). -/
theorem c2_humidity_counterexample :
    resolveHumidity (HumidityField.flat 0) [HumidityField.flat 55] 0 =
        HumidityOut.num 55
    ∧ resolveHumidity (HumidityField.flat 0) [HumidityField.flat 55] 0 ≠
        HumidityOut.num 0
    ∧ resolveHumidity HumidityField.absent
        [HumidityField.flat 0, HumidityField.flat 44] 0 =
        HumidityOut.num 44 := by
  decide

/-- Claim C2 as amended: a truthy own relative-humidity value (non-zero
plain numeric, or a wrapper whose value entry is non-null) is used
verbatim regardless of the hourly feed; otherwise — including a plain 0
or a wrapper around null — the 4-item hourly slice at offset `i * 4` is
scanned and the first entry yielding a value under the same truthiness
rule wins; when nothing yields a value the humidity is exactly the
sentinel. -/
theorem c2_humidity_resolution (own : HumidityField)
    (hourly : List HumidityField) (i : Nat) :
    (∀ v : ℚ,
      ((∃ w, own = HumidityField.flat w ∧ w ≠ 0 ∧ v = w)
        ∨ own = HumidityField.wrapped (some v)) →
      resolveHumidity own hourly i = HumidityOut.num v)
    ∧ ((own = HumidityField.absent ∨ own = HumidityField.nullv
        ∨ own = HumidityField.flat 0 ∨ own = HumidityField.wrapped none) →
      resolveHumidity own hourly i =
        match ((hourly.drop (i * 4)).take 4).findSome? HumidityField.extract
          with
        | some v => HumidityOut.num v
        | none => HumidityOut.na) := by
  constructor
  · rintro v (⟨w, rfl, hw, rfl⟩ | rfl)
    · simp [resolveHumidity, HumidityField.extract, hw]
    · simp [resolveHumidity, HumidityField.extract]
  · intro hown
    have hx : own.extract = none := by
      rcases hown with rfl | rfl | rfl | rfl <;> simp [HumidityField.extract]
    by_cases hh : hourly = []
    · subst hh
      simp [resolveHumidity, hx]
    · simp [resolveHumidity, hx, hh, scanHourly_eq_findSome]

/-- Witness for C2: a truthy own value of 40 beats an hourly 70, and a
wrapper around null falls through to the hourly feed yielding 33. -/
theorem c2_humidity_resolution_witness :
    resolveHumidity (HumidityField.flat 40) [HumidityField.flat 70] 0 =
      HumidityOut.num 40
    ∧ resolveHumidity (HumidityField.wrapped none)
        [HumidityField.nullv, HumidityField.flat 33] 0 =
      HumidityOut.num 33 := by
  constructor
  · exact (c2_humidity_resolution (HumidityField.flat 40)
      [HumidityField.flat 70] 0).1 40 (Or.inl ⟨40, rfl, by norm_num, rfl⟩)
  · exact ((c2_humidity_resolution (HumidityField.wrapped none)
      [HumidityField.nullv, HumidityField.flat 33] 0).2
        (by simp)).trans (by decide)

/-- Counterexample for C3 as stated: `_classify_terrain` never returns
the bare label `Flat`; at range 5 it returns `Flat terrain`. -/
theorem c3_terrain_counterexample :
    classifyTerrain 5 ≠ "Flat" ∧ classifyTerrain 5 = "Flat terrain" := by
  decide

/-- Claim C3 as amended: terrain classification is a pure step function
of `elevation_range` with inclusive lower / exclusive upper boundaries
at 10, 50 and 100, and the labels carry a ` terrain` suffix:
`Flat terrain`, `Gently rolling terrain`, `Moderately hilly terrain`,
`Steep/mountainous terrain`. -/
theorem c3_terrain_classification (r : ℚ) :
    (r < 10 → classifyTerrain r = "Flat terrain")
    ∧ (10 ≤ r → r < 50 → classifyTerrain r = "Gently rolling terrain")
    ∧ (50 ≤ r → r < 100 → classifyTerrain r = "Moderately hilly terrain")
    ∧ (100 ≤ r → classifyTerrain r = "Steep/mountainous terrain") := by
  refine ⟨?_, ?_, ?_, ?_⟩
  · intro h
    simp [classifyTerrain, h]
  · intro h1 h2
    have h3 : ¬ r < 10 := by linarith
    simp [classifyTerrain, h3, h2]
  · intro h1 h2
    have h3 : ¬ r < 10 := by linarith
    have h4 : ¬ r < 50 := by linarith
    simp [classifyTerrain, h3, h4, h2]
  · intro h1
    have h3 : ¬ r < 10 := by linarith
    have h4 : ¬ r < 50 := by linarith
    have h5 : ¬ r < 100 := by linarith
    simp [classifyTerrain, h3, h4, h5]

/-- Witness for C3 at the boundary values 5, 10, 99.5 and 100. -/
theorem c3_terrain_classification_witness :
    classifyTerrain 5 = "Flat terrain"
    ∧ classifyTerrain 10 = "Gently rolling terrain"
    ∧ classifyTerrain (199 / 2) = "Moderately hilly terrain"
    ∧ classifyTerrain 100 = "Steep/mountainous terrain" :=
  ⟨(c3_terrain_classification 5).1 (by norm_num),
   (c3_terrain_classification 10).2.1 (by norm_num) (by norm_num),
   (c3_terrain_classification (199 / 2)).2.2.1 (by norm_num) (by norm_num),
   (c3_terrain_classification 100).2.2.2 (by norm_num)⟩

/-- Claim C4: for a non-error weather report whose first period has
parseable wind text, concerns trigger independently and in the fixed
order wind, humidity, temperature — membership of each concern is
exactly its trigger, the list is a sublist of the fixed order (or the
single default), the default appears exactly when nothing triggers, and
the fixed recommendation is attached. -/
theorem c4_burn_concerns (source : String) (current : NormPeriod)
    (rest : List NormPeriod) (wv : Nat)
    (hw : parseWindValue current.wind_speed = Except.ok wv) :
    ∃ cs,
      assessBurnConditions (WeatherData.ok source (current :: rest)) =
        Assessment.ok cs fixedRecommendation
      ∧ (cs.Sublist [highWindConcern, lowHumidityConcern, highTempConcern]
          ∨ cs = [moderateConcern])
      ∧ (highWindConcern ∈ cs ↔ wv > 15)
      ∧ (lowHumidityConcern ∈ cs ↔
          ∃ v, current.humidity = HumidityOut.num v ∧ v < 30)
      ∧ (highTempConcern ∈ cs ↔ current.temperature > 85)
      ∧ (cs = [moderateConcern] ↔
          ¬ wv > 15
          ∧ ¬ (∃ v, current.humidity = HumidityOut.num v ∧ v < 30)
          ∧ ¬ current.temperature > 85) := by
  simp only [assessBurnConditions, hw]
  by_cases h1 : 15 < wv <;>
    cases h2 : lowHumidityTriggered current.humidity <;>
      by_cases h3 : 85 < current.temperature <;>
        refine ⟨_, rfl, ?_, ?_, ?_, ?_⟩ <;>
          simp only [h1, h2, h3, if_true, if_false, if_pos, if_neg,
            ← lowHumidityTriggered_iff, gt_iff_lt, not_lt, not_false_iff,
            Bool.false_eq_true, Bool.true_eq_false] <;>
          simp_all <;> decide

/-- Witness for C4 at the spec example wind 5 mph, humidity 60,
temperature 70: exactly the single default concern. -/
theorem c4_burn_concerns_witness :
    assessBurnConditions
        (WeatherData.ok "National Weather Service (NOAA)"
          [mkPeriod "Today" 70 "5 mph" (HumidityOut.num 60)]) =
      Assessment.ok [moderateConcern] fixedRecommendation := by
  obtain ⟨cs, heq, -, -, -, -, hmod⟩ :=
    c4_burn_concerns "National Weather Service (NOAA)"
      (mkPeriod "Today" 70 "5 mph" (HumidityOut.num 60)) [] 5 rfl
  have hcs : cs = [moderateConcern] := by
    apply hmod.mpr
    refine ⟨by norm_num, ?_, by decide⟩
    rintro ⟨v, hv, hlt⟩
    have h60 : (60 : ℚ) = v := by
      simpa [mkPeriod] using hv
    rw [← h60] at hlt
    norm_num at hlt
  rw [heq, hcs]

/-- Claim C5: the Burn Assessor never raises — the embedding is a total
function — and it returns the fixed degraded message on the
error-variant, and the `Unable to assess conditions:` prefixed degraded
message whenever the concern computation would raise (empty forecast
list, or a wind-speed string that fails to parse). -/
theorem c5_assessor_never_raises :
    (∀ m, assessBurnConditions (WeatherData.err m) =
        Assessment.degraded "Unable to assess - weather data unavailable")
    ∧ (∀ source forecast,
        (forecast = []
          ∨ ∃ c r, forecast = c :: r
              ∧ ∃ em, parseWindValue c.wind_speed = Except.error em) →
        ∃ m, assessBurnConditions (WeatherData.ok source forecast) =
          Assessment.degraded ("Unable to assess conditions: " ++ m)) := by
  constructor
  · intro m
    rfl
  · rintro source forecast (rfl | ⟨c, r, rfl, em, hem⟩)
    · exact ⟨"list index out of range", rfl⟩
    · exact ⟨em, by simp [assessBurnConditions, hem]⟩

/-- Witness for C5: the error-variant, and a first period whose wind
text `calm` has no digits. -/
theorem c5_assessor_never_raises_witness :
    assessBurnConditions (WeatherData.err "boom") =
      Assessment.degraded "Unable to assess - weather data unavailable"
    ∧ ∃ m,
      assessBurnConditions
          (WeatherData.ok "National Weather Service (NOAA)"
            [mkPeriod "Today" 70 "calm" HumidityOut.na]) =
        Assessment.degraded ("Unable to assess conditions: " ++ m) :=
  ⟨c5_assessor_never_raises.1 "boom",
   c5_assessor_never_raises.2 "National Weather Service (NOAA)" _
     (Or.inr ⟨_, _, rfl, "invalid literal for int with base 10", rfl⟩)⟩

/-- Claim C6: for a non-empty tally the dominant fuel is a tallied tag
whose count attains the maximum over all tallied tags (chosen by a
deterministic pure function of the insertion-ordered tally, hence
consistent across repeated runs on identical input order); for the
empty tally it is exactly `Unknown`. -/
theorem c6_dominant_fuel (fuel_types : List (String × Nat)) :
    (fuel_types = [] → dominantFuel fuel_types = "Unknown")
    ∧ (∀ x xs, fuel_types = x :: xs →
        ∃ c, (dominantFuel fuel_types, c) ∈ fuel_types
          ∧ ∀ p ∈ fuel_types, p.2 ≤ c) := by
  constructor
  · rintro rfl
    rfl
  · rintro x xs rfl
    have h := maxByCount_spec xs x
    refine ⟨(maxByCount x xs).2, ?_, ?_⟩
    · rcases h.1 with hm | hm
      · rw [dominantFuel, hm]
        exact List.mem_cons_self x xs
      · simpa [dominantFuel] using List.mem_cons_of_mem x hm
    · intro p hp
      rcases List.mem_cons.mp hp with rfl | hp2
      · exact h.2.1
      · exact h.2.2 p hp2

/-- Witness for C6: the empty tally gives `Unknown`, and the spec tie
example picks `grass`, one of the tied max entries. -/
theorem c6_dominant_fuel_witness :
    dominantFuel [] = "Unknown"
    ∧ dominantFuel [("wood", 3), ("grass", 5), ("scrub", 5)] = "grass"
    ∧ ("grass", 5) ∈ [("wood", 3), ("grass", 5), ("scrub", 5)] :=
  ⟨(c6_dominant_fuel []).1 rfl, by decide, by decide⟩

/-- Claim C7: when geocoding succeeds the report is always returned
with all six keys, each section is a function of its own upstream only
(so one section failing cannot disturb a sibling), and a failing
section lookup is replaced at its own boundary by the same-shaped error
variant carrying the source-prefixed message. -/
theorem c7_section_isolation (env : Upstreams) (city : String)
    (loc : LocationRecord)
    (hgeo : geocodeCity env.resolver city = Except.ok loc) :
    (analyzeLocation env city).1 =
      Except.ok
        { location := loc,
          weather := getWeatherData env.weather,
          topography := getTopographyData env.topography,
          fuel_sources := getFuelSources env.fuel,
          water_sources := getWaterSources env.water,
          burn_assessment :=
            assessBurnConditions (getWeatherData env.weather) }
    ∧ (∀ m, getWeatherData (Except.error m) =
        WeatherData.err ("Weather data unavailable: " ++ m))
    ∧ (∀ m, getTopographyData (Except.error m) =
        TopoData.err ("Topography data unavailable: " ++ m))
    ∧ (∀ m, getFuelSources (Except.error m) =
        FuelData.err ("Fuel source data unavailable: " ++ m))
    ∧ (∀ m, getWaterSources (Except.error m) =
        WaterData.err ("Water source data unavailable: " ++ m)) := by
  refine ⟨?_, fun m => rfl, fun m => rfl, fun m => rfl, fun m => rfl⟩
  simp [analyzeLocation, hgeo]

/-- Witness for C7 at `sampleEnv`, where the topography and water
lookups raise but the full six-key report is still returned. -/
theorem c7_section_isolation_witness :
    (analyzeLocation sampleEnv "Sample City").1 =
      Except.ok
        { location := sampleLoc,
          weather := getWeatherData sampleEnv.weather,
          topography := getTopographyData sampleEnv.topography,
          fuel_sources := getFuelSources sampleEnv.fuel,
          water_sources := getWaterSources sampleEnv.water,
          burn_assessment :=
            assessBurnConditions (getWeatherData sampleEnv.weather) } :=
  (c7_section_isolation sampleEnv "Sample City" sampleLoc rfl).1

/-- Claim C8: an empty or missing place name is rejected with a 400
client error before any processing — the outbound call list of the
request is empty. -/
theorem c8_empty_city_rejected (cityField : Option String)
    (env : Upstreams) (h : cityField = none ∨ cityField = some "") :
    analyzeEndpoint cityField env =
      ((400, HttpBody.errorMsg "City name is required"), []) := by
  rcases h with rfl | rfl <;> rfl

/-- Witness for C8 with the `city` key missing entirely. -/
theorem c8_empty_city_rejected_witness :
    analyzeEndpoint none sampleEnv =
      ((400, HttpBody.errorMsg "City name is required"), []) :=
  c8_empty_city_rejected none sampleEnv (Or.inl rfl)

/-- Claim C9: when the resolver finds no match for a non-empty place
name, the geocoder raises a not-found error carrying the failure
message, the error propagates out of `analyze_location` (it is not
converted to a section error-variant and no partial report is
returned), and the request boundary reports it as a 500 whose body
carries the message; only the geocoding call was made. -/
theorem c9_geocode_miss (cityField : Option String) (env : Upstreams)
    (city : String) (hc : cityField = some city) (hne : city ≠ "")
    (hmiss : env.resolver = none) :
    (analyzeLocation env city).1 =
      Except.error ("Could not find location: " ++ city)
    ∧ analyzeEndpoint cityField env =
        ((500, HttpBody.errorMsg ("Could not find location: " ++ city)),
          ["geocode"]) := by
  subst hc
  constructor
  · simp [analyzeLocation, geocodeCity, hmiss]
  · simp [analyzeEndpoint, hne, analyzeLocation, geocodeCity, hmiss]

/-- Witness for C9 at a place the resolver cannot find. -/
theorem c9_geocode_miss_witness :
    (analyzeLocation
        { sampleEnv with resolver := none } "Nowhereville").1 =
      Except.error ("Could not find location: " ++ "Nowhereville")
    ∧ analyzeEndpoint (some "Nowhereville")
        { sampleEnv with resolver := none } =
      ((500,
        HttpBody.errorMsg ("Could not find location: " ++ "Nowhereville")),
        ["geocode"]) :=
  c9_geocode_miss (some "Nowhereville") _ "Nowhereville" rfl
    (by decide) rfl

/-- Claim C10: the fuel tally counts only `way` elements carrying a
truthy `natural` or `landuse` tag (nodes and relations are never
tallied), `total_areas` is the number of `way` elements, hence
`total_areas` bounds the tally sum from above and every tallied count
is positive; every tallied tag comes from some qualifying `way`
element. -/
theorem c10_fuel_tally_invariants (elements : List OsmElement) :
    totalAreas elements = (elements.filter fun e => e.type == "way").length
    ∧ sumCounts (fuelTally elements) =
        ((elements.filter fun e => e.type == "way").filter
          fun e => (fuelTagOf e.tags).isSome).length
    ∧ sumCounts (fuelTally elements) ≤ totalAreas elements
    ∧ (∀ p ∈ fuelTally elements, 0 < p.2)
    ∧ (∀ p ∈ fuelTally elements,
        ∃ e ∈ elements, e.type = "way" ∧ fuelTagOf e.tags = some p.1) := by
  have hsum := fuelFold_sum elements []
  refine ⟨rfl, ?_, ?_, ?_, ?_⟩
  · simpa [fuelTally, sumCounts] using hsum
  · rw [fuelTally, hsum, totalAreas]
    simpa [sumCounts] using
      List.length_filter_le (fun e => (fuelTagOf e.tags).isSome)
        (elements.filter fun e => e.type == "way")
  · exact fuelFold_pos elements [] (by simp)
  · intro p hp
    rcases fuelFold_provenance elements [] p hp with hk | h
    · simp at hk
    · exact h

/-- Witness for C10 at `demoElems`, whose tally is
`[(wood, 2), (grass, 1)]` with four ways and one node. -/
theorem c10_fuel_tally_invariants_witness :
    sumCounts (fuelTally demoElems) ≤ totalAreas demoElems
    ∧ 0 < (("grass", 1) : String × Nat).2 :=
  ⟨(c10_fuel_tally_invariants demoElems).2.2.1,
   (c10_fuel_tally_invariants demoElems).2.2.2.1 ("grass", 1) (by decide)⟩
